import Mathlib

/-!
Verification development for the trading-mode orchestration layer of
`octobot_trading/modes/abstract_trading_mode.py` (class `AbstractTradingMode`).

The Python source is shallowly embedded: every method relevant to the claims is
translated into an executable Lean definition, with mutable object state made
explicit (record types threaded through the functions), external collaborators
(trader, portfolio-percent computation, remote signal transport) passed as
function arguments, and Python exceptions rendered as `Except` results.
-/

set_option autoImplicit false

namespace AbstractTradingMode

/-- A Python `decimal.Decimal` / numeric value is modelled as a rational. -/
abbrev Dec := ℚ

/-- The trading-mode tentacle configuration dictionary (`self.trading_config`),
restricted to the two keys the embedded methods read.  A `none` field models
the key being absent from the dictionary (a lookup raises `KeyError`). -/
structure TradingConfig where
  /-- value under `CONFIG_EMIT_TRADING_SIGNALS`, `none` when the key is absent -/
  emitTradingSignals : Option Bool
  /-- value under `CONFIG_TRADING_SIGNALS_STRATEGY`, `none` when the key is absent -/
  tradingSignalsStrategy : Option String
  deriving Repr, DecidableEq

/-- The immutable-per-call part of a trading-mode instance that the order
mediator and signal methods read: its loaded `trading_config`, the
`exchange_manager.is_backtesting` flag, and the tentacle name (`get_name()`). -/
structure Mode where
  tradingConfig : TradingConfig
  isBacktesting : Bool
  name : String
  deriving Repr, DecidableEq

/-- `is_trading_signal_emitter` (source lines 152-159): returns the value of the
`CONFIG_EMIT_TRADING_SIGNALS` key of `trading_config`; a `KeyError` (absent
key) is caught and `False` is returned. -/
def isTradingSignalEmitter (m : Mode) : Bool :=
  match m.tradingConfig.emitTradingSignals with
  | some v => v
  | none => false

/-- `should_emit_trading_signal` (source lines 161-165):
`not self.exchange_manager.is_backtesting and self.is_trading_signal_emitter()`. -/
def shouldEmitTradingSignal (m : Mode) : Bool :=
  !m.isBacktesting && isTradingSignalEmitter m

/-- `get_trading_signal_identifier` (source lines 167-174): the configured
strategy name when present and truthy (a non-empty string), else the tentacle
name; a `KeyError` on the absent key also falls back to the tentacle name. -/
def getTradingSignalIdentifier (m : Mode) : String :=
  match m.tradingConfig.tradingSignalsStrategy with
  | some s => if s = "" then m.name else s
  | none => m.name

/-- An order object, restricted to the attributes read by the mediator:
`origin_quantity`, `side` and `symbol`. -/
structure Order where
  originQuantity : Dec
  /-- `true` for buy, `false` for sell -/
  sideIsBuy : Bool
  symbol : String
  deriving Repr, DecidableEq

/-- One record appended to the active signal bundle builder by the order
mediator (`add_created_order` / `add_cancelled_order` / `add_edited_order`). -/
inductive SignalRecord where
  /-- `add_created_order(created_order, ..., target_amount=order_pf_percent)` -/
  | createdOrder (order : Order) (targetAmount : Dec)
  /-- `add_cancelled_order(order, ...)` -/
  | cancelledOrder (order : Order)
  /-- `add_edited_order(order, ..., updated_target_amount=..., updated_limit_price=...,
  updated_stop_price=..., updated_current_price=...)` -/
  | editedOrder (order : Order)
      (updatedTargetAmount updatedLimitPrice updatedStopPrice updatedCurrentPrice : Option Dec)
  deriving Repr, DecidableEq

/-- The mutable state the order mediator touches: a snapshot of the live
portfolio read by `orders.get_order_size_portfolio_percent` (abstracted to a
rational summary), and the queue of records enqueued into the signal bundle
builder (`signals.SignalPublisher.instance().get_signal_bundle_builder(...)`),
most recent first. -/
structure MediatorState where
  portfolio : Dec
  signals : List SignalRecord
  deriving Repr, DecidableEq

/-- `create_order` (source lines 443-460).  `getPercent` embeds the external
collaborator `orders.get_order_size_portfolio_percent` as a function of the
portfolio snapshot and the order; `trader` embeds
`self.exchange_manager.trader.create_order` and may mutate the state (e.g. the
portfolio).  The percent string default `"0%"` is modelled as the rational `0`;
the percent is computed from the state as it is before the trader call, exactly
as in the source. -/
def createOrder (m : Mode) (getPercent : Dec → Order → Dec)
    (trader : Order → MediatorState → Option Order × MediatorState)
    (order : Order) (s : MediatorState) : Option Order × MediatorState :=
  let orderPfPercent : Dec :=
    if shouldEmitTradingSignal m then getPercent s.portfolio order else 0
  let res := trader order s
  match res with
  | (some createdOrder, s1) =>
    if shouldEmitTradingSignal m then
      (some createdOrder,
        { s1 with signals := SignalRecord.createdOrder createdOrder orderPfPercent :: s1.signals })
    else (some createdOrder, s1)
  | (none, s1) => (none, s1)

/-- `cancel_order` (source lines 462-468).  `trader` embeds
`self.exchange_manager.trader.cancel_order`. -/
def cancelOrder (m : Mode)
    (trader : Order → MediatorState → Bool × MediatorState)
    (order : Order) (s : MediatorState) : Bool × MediatorState :=
  let res := trader order s
  if shouldEmitTradingSignal m && res.1 then
    (res.1, { res.2 with signals := SignalRecord.cancelledOrder order :: res.2.signals })
  else res

/-- `edit_order` (source lines 470-493).  `trader` embeds
`self.exchange_manager.trader.edit_order`; the four optional edited fields are
forwarded to it and, on success with signals enabled, to the edited-order
signal record verbatim. -/
def editOrder (m : Mode)
    (trader : Order → Option Dec → Option Dec → Option Dec → Option Dec →
      MediatorState → Bool × MediatorState)
    (order : Order)
    (editedQuantity editedPrice editedStopPrice editedCurrentPrice : Option Dec)
    (s : MediatorState) : Bool × MediatorState :=
  let res := trader order editedQuantity editedPrice editedStopPrice editedCurrentPrice s
  let editedRecord :=
    SignalRecord.editedOrder order editedQuantity editedPrice editedStopPrice editedCurrentPrice
  if shouldEmitTradingSignal m && res.1 then
    (res.1, { res.2 with signals := editedRecord :: res.2.signals })
  else res

/-- The exceptions distinguished by `remote_signal_publisher` (source lines
426-441): `authentication.AuthenticationRequired`,
`authentication.UnavailableError`, and every other exception class. -/
inductive SigFailure where
  | authenticationRequired
  | unavailableError
  | other
  deriving Repr, DecidableEq

/-- The signal bundle builder yielded by `remote_signal_publisher` when
signals are emitted: a `TradingSignalBundleBuilder` built for the symbol with
the mode's trading-signal identifier (source lines 430-436). -/
structure SignalBundleBuilder where
  symbol : String
  identifier : String
  deriving Repr, DecidableEq

/-- The value `remote_signal_publisher` yields to the caller's `async with`
body: the active builder when `should_emit_trading_signal()` holds (source
line 437), and the no-op placeholder `None` otherwise (source line 441). -/
def remoteSignalPublisherYield (m : Mode) (symbol : String) : Option SignalBundleBuilder :=
  if shouldEmitTradingSignal m then
    some { symbol := symbol, identifier := getTradingSignalIdentifier m }
  else none

/-- `remote_signal_publisher` (source lines 426-441), an async context manager
run against a caller body.  `body` is the caller's `async with` block (it
receives the yielded builder or `none` and may mutate state, e.g. place
orders); `flush` embeds the bundle flush performed by the transport scope
(`signals.SignalPublisher.instance().remote_signal_bundle_builder(...)`) on
exit.  When signals are emitted, the transport scope wraps the body and its
flush inside a `try` that catches `AuthenticationRequired` and
`UnavailableError`, logs them, and swallows them; any other exception
propagates.  When signals are not emitted the body runs bare with `none` and
nothing is caught. -/
def remoteSignalPublisher {σ : Type} (m : Mode) (symbol : String)
    (body : Option SignalBundleBuilder → σ → σ × Except SigFailure Unit)
    (flush : SignalBundleBuilder → σ → Except SigFailure Unit)
    (s : σ) : σ × Except SigFailure Unit :=
  match remoteSignalPublisherYield m symbol with
  | some b =>
    let bodyRes := body (some b) s
    let scopeRes : σ × Except SigFailure Unit :=
      match bodyRes with
      | (s1, Except.ok _) => (s1, flush b s1)
      | (s1, Except.error e) => (s1, Except.error e)
    match scopeRes with
    | (s2, Except.error SigFailure.authenticationRequired) => (s2, Except.ok ())
    | (s2, Except.error SigFailure.unavailableError) => (s2, Except.ok ())
    | other => other
  | none => body none s

/-- The `exchange_manager` attributes read by `stop` and
`save_backtesting_data`: `bot_id` and `is_backtesting`. -/
structure ExchangeManager where
  botId : String
  isBacktesting : Bool
  deriving Repr, DecidableEq

/-- The per-instance mutable fields read and written by `stop` and
`save_backtesting_data`: `self.are_metadata_saved` and the
`self.exchange_manager` reference (`none` after release). -/
structure ModeState where
  areMetadataSaved : Bool
  exchangeManager : Option ExchangeManager
  deriving Repr, DecidableEq

/-- The process-wide state shared across trading-mode instances:
`AbstractTradingMode.SAVED_RUN_METADATA_DB_BY_BOT_ID` (read through
`.get(bot_id, False)`, so an absent key reads `false`), together with two
observation logs: the bot ids for which a backtesting-metadata record was
successfully written (`save_metadata` under the `DBWriter` lock, source lines
512-518), and the bot ids for which the pre-write work ran
(`run_data_writer.flush()`, `get_user_inputs`, `save_transactions`,
`save_trades`, source lines 501-507). -/
structure GlobalState where
  savedRunMetadataDbByBotId : String → Bool
  metadataWrites : List String
  flushes : List String

/-- Update of the `SAVED_RUN_METADATA_DB_BY_BOT_ID` mapping at one bot id. -/
def setFlag (f : String → Bool) (botId : String) (v : Bool) : String → Bool :=
  fun b => if b = botId then v else f b

/-- `save_backtesting_data` (source lines 495-522).  `writeOk` tells whether
the metadata computation and write (`get_backtesting_metadata` +
`save_metadata`, the body of the `try`) succeed; on failure the class-level
flag is reset to `False` and the exception propagates (`Except.error`).  The
instance flag `are_metadata_saved` is set only after a successful write. -/
def saveBacktestingData (writeOk : Bool) (m : ModeState) (g : GlobalState) :
    ModeState × GlobalState × Except Unit Unit :=
  match m.exchangeManager with
  | none => (m, g, Except.ok ())
  | some em =>
    if m.areMetadataSaved then (m, g, Except.ok ())
    else
      let g1 := { g with flushes := em.botId :: g.flushes }
      if g1.savedRunMetadataDbByBotId em.botId then (m, g1, Except.ok ())
      else
        if writeOk then
          ({ m with areMetadataSaved := true },
            { g1 with
              savedRunMetadataDbByBotId := setFlag g1.savedRunMetadataDbByBotId em.botId true,
              metadataWrites := em.botId :: g1.metadataWrites },
            Except.ok ())
        else
          (m,
            { g1 with
              savedRunMetadataDbByBotId := setFlag g1.savedRunMetadataDbByBotId em.botId false },
            Except.error ())

/-- `stop` (source lines 212-222), as a state transition.  When
`exchange_manager` is already `None`, reading `.is_backtesting` on it raises
(`AttributeError`), modelled as `Except.error`.  In a backtesting context the
metadata save runs first and a raised exception propagates before producers
are stopped or the reference released; otherwise producers and consumers are
stopped (no effect on this state) and the `exchange_manager` reference is
released. -/
def stop (writeOk : Bool) (m : ModeState) (g : GlobalState) :
    ModeState × GlobalState × Except Unit Unit :=
  match m.exchangeManager with
  | none => (m, g, Except.error ())
  | some em =>
    if em.isBacktesting then
      match saveBacktestingData writeOk m g with
      | (m1, g1, Except.error e) => (m1, g1, Except.error e)
      | (m1, g1, Except.ok _) => ({ m1 with exchangeManager := none }, g1, Except.ok ())
    else ({ m with exchangeManager := none }, g, Except.ok ())

/-- A system of trading-mode instances sharing the class-level state. -/
structure SysState where
  modes : List ModeState
  global : GlobalState

/-- One `stop()` call on the instance at the given index (out-of-range indices
leave the system unchanged); the second component tells whether the metadata
write succeeds if one is attempted during this call. -/
def sysStop (c : ℕ × Bool) (s : SysState) : SysState :=
  match s.modes.get? c.1 with
  | none => s
  | some m =>
    let res := stop c.2 m s.global
    { modes := s.modes.set c.1 res.1, global := res.2.1 }

/-- Run a sequence of `stop()` calls, first call first. -/
def runStops : List (ℕ × Bool) → SysState → SysState
  | [], s => s
  | cl :: cls, s => runStops cls (sysStop cl s)

/-- The initial system state: fresh instances, an empty
`SAVED_RUN_METADATA_DB_BY_BOT_ID` mapping (every bot id reads `False`), and
empty observation logs. -/
def initSys (instances : List ModeState) : SysState :=
  { modes := instances,
    global := { savedRunMetadataDbByBotId := fun _ => false, metadataWrites := [], flushes := [] } }

/-- The observable teardown steps performed by `stop` (source lines 212-222). -/
inductive StopStep where
  | saveBacktestingData
  | stopProducer (i : ℕ)
  | stopConsumer (i : ℕ)
  | releaseExchangeManager
  deriving Repr, DecidableEq

/-- The ordered list of teardown steps executed by one run of `stop` (source
lines 212-222) on an instance with `producers` producers and `consumers`
consumers: when backtesting, `save_backtesting_data` is awaited first (and if
it raises, `saveOk = false`, the exception propagates and no later step runs);
then each producer is stopped, then each consumer, and finally the
`exchange_manager` reference is set to `None`. -/
def stopTrace (isBacktesting saveOk : Bool) (producers consumers : ℕ) : List StopStep :=
  if isBacktesting && !saveOk then [StopStep.saveBacktestingData]
  else
    (if isBacktesting then [StopStep.saveBacktestingData] else [])
      ++ (List.range producers).map StopStep.stopProducer
      ++ (List.range consumers).map StopStep.stopConsumer
      ++ [StopStep.releaseExchangeManager]

/-- The position of a teardown step in the fixed order mandated by `stop`. -/
def stepPhase : StopStep → ℕ
  | StopStep.saveBacktestingData => 0
  | StopStep.stopProducer _ => 1
  | StopStep.stopConsumer _ => 2
  | StopStep.releaseExchangeManager => 3

/-- Python `round(x)` on an exact numeric value: round half to even. -/
def roundHalfEven (x : ℚ) : ℤ :=
  let f := ⌊x⌋
  let frac := x - f
  if frac < 1 / 2 then f
  else if 1 / 2 < frac then f + 1
  else if f % 2 = 0 then f else f + 1

/-- Python `round(x, n)` on an exact numeric value: round to `n` decimal
places, half to even.  Python applies this to `float` values; floats are
modelled as exact rationals here. -/
def pyRound (x : ℚ) (n : ℕ) : ℚ :=
  (roundHalfEven (x * 10 ^ n) : ℚ) / 10 ^ n

/-- A value carries at most `n` decimal places: rounding it again to `n`
places leaves it unchanged. -/
def isRoundedTo (n : ℕ) (v : ℚ) : Prop :=
  pyRound v n = v

/-- The collaborator-supplied numeric inputs of `get_backtesting_metadata`
(source lines 564-650): the profitability statistics, win rate, draw down and
backtesting duration reported by the trading and backtesting APIs, and the
number of filled buy-side entry trades. -/
structure BacktestingMetadataInputs where
  /-- `trading_api.get_profitability_stats(...)` first component -/
  profitability : ℚ
  /-- `trading_api.get_profitability_stats(...)` second component -/
  profitabilityPercent : ℚ
  /-- `trading_api.get_win_rate(self.exchange_manager)` -/
  winRateRaw : ℚ
  /-- `trading_api.get_draw_down(self.exchange_manager)` -/
  drawDownRaw : ℚ
  /-- `backtesting_api.get_backtesting_duration(...)` -/
  durationRaw : ℚ
  /-- `len(entries)`: filled buy-side trades -/
  entriesCount : ℕ
  deriving Repr, DecidableEq

/-- The numeric fields of the backtesting metadata record returned by
`get_backtesting_metadata` (source lines 616-650). -/
structure BacktestingMetadataRecord where
  /-- `BacktestingMetadata.GAINS`: `round(float(profitability), 8)` -/
  gains : ℚ
  /-- `BacktestingMetadata.PERCENT_GAINS`: `round(float(profitability_percent), 3)` -/
  percentGains : ℚ
  /-- `BacktestingMetadata.WIN_RATE`: `round(float(... * 100), 3)` -/
  winRate : ℚ
  /-- `BacktestingMetadata.DRAW_DOWN`: `draw_down or 0` -/
  drawDown : ℚ
  /-- `BacktestingMetadata.DURATION`: `round(get_backtesting_duration(...), 3)` -/
  duration : ℚ
  /-- `BacktestingMetadata.WINS`: `round(win_rate * len(entries) / 100)` -/
  wins : ℤ
  /-- `BacktestingMetadata.LOSES`: `len(entries) - wins` -/
  loses : ℤ
  /-- `BacktestingMetadata.ENTRIES`: `len(entries)` -/
  entries : ℕ
  deriving Repr, DecidableEq

/-- The numeric part of `get_backtesting_metadata` (source lines 598-650):
`win_rate = round(float(get_win_rate(...) * 100), 3)`,
`wins = round(win_rate * len(entries) / 100)`,
`draw_down = round(float(get_draw_down(...)), 3)`, and the record fields as
written on lines 621-639 (`draw_down or 0` maps a zero rounded draw down to
the literal `0`). -/
def getBacktestingMetadata (i : BacktestingMetadataInputs) : BacktestingMetadataRecord :=
  let winRate := pyRound (i.winRateRaw * 100) 3
  let wins := roundHalfEven (winRate * i.entriesCount / 100)
  let drawDown := pyRound i.drawDownRaw 3
  { gains := pyRound i.profitability 8
    percentGains := pyRound i.profitabilityPercent 3
    winRate := winRate
    drawDown := if drawDown = 0 then 0 else drawDown
    duration := pyRound i.durationRaw 3
    wins := wins
    loses := (i.entriesCount : ℤ) - wins
    entries := i.entriesCount }

/-- Number of successful backtesting-metadata writes recorded for a bot id. -/
def writesFor (g : GlobalState) (botId : String) : ℕ :=
  g.metadataWrites.count botId

/-- The `SAVED_RUN_METADATA_DB_BY_BOT_ID` flag read for a bot id
(`.get(bot_id, False)`). -/
def flagFor (g : GlobalState) (botId : String) : Bool :=
  g.savedRunMetadataDbByBotId botId

/-- The save-once invariant for one bot id: at most one successful
backtesting-metadata write has occurred, and the saved flag reads `True`
exactly when one has. -/
def SaveOnceInv (g : GlobalState) (botId : String) : Prop :=
  writesFor g botId ≤ 1 ∧ (flagFor g botId = true ↔ writesFor g botId = 1)

/-! Helper lemmas. -/

theorem roundHalfEven_intCast (k : ℤ) : roundHalfEven (k : ℚ) = k := by
  norm_num [roundHalfEven]

theorem pyRound_isRounded (x : ℚ) (n : ℕ) : isRoundedTo n (pyRound x n) := by
  unfold isRoundedTo pyRound
  rw [div_mul_cancel₀ _ (by positivity : ((10 : ℚ) ^ n) ≠ 0), roundHalfEven_intCast]

/-- C8: in every backtesting metadata record produced by
`get_backtesting_metadata`, the absolute gain is the raw profitability rounded
to 8 decimal places, and the percent gain, win rate, draw down and duration
are the corresponding raw statistics rounded to 3 decimal places; each of
these record fields therefore carries no more decimal places than stated. -/
theorem getBacktestingMetadata_rounding (i : BacktestingMetadataInputs) :
    (getBacktestingMetadata i).gains = pyRound i.profitability 8
    ∧ isRoundedTo 8 (getBacktestingMetadata i).gains
    ∧ (getBacktestingMetadata i).percentGains = pyRound i.profitabilityPercent 3
    ∧ isRoundedTo 3 (getBacktestingMetadata i).percentGains
    ∧ (getBacktestingMetadata i).winRate = pyRound (i.winRateRaw * 100) 3
    ∧ isRoundedTo 3 (getBacktestingMetadata i).winRate
    ∧ (getBacktestingMetadata i).drawDown = pyRound i.drawDownRaw 3
    ∧ isRoundedTo 3 (getBacktestingMetadata i).drawDown
    ∧ (getBacktestingMetadata i).duration = pyRound i.durationRaw 3
    ∧ isRoundedTo 3 (getBacktestingMetadata i).duration := by
  have hdd : (getBacktestingMetadata i).drawDown = pyRound i.drawDownRaw 3 := by
    unfold getBacktestingMetadata
    dsimp only
    split
    · rename_i h
      exact h.symm
    · rfl
  refine ⟨rfl, pyRound_isRounded _ _, rfl, pyRound_isRounded _ _, rfl, pyRound_isRounded _ _,
    hdd, ?_, rfl, pyRound_isRounded _ _⟩
  rw [hdd]
  exact pyRound_isRounded _ _

theorem createOrder_fst (m : Mode) (getPercent : Dec → Order → Dec)
    (trader : Order → MediatorState → Option Order × MediatorState)
    (order : Order) (s : MediatorState) :
    (createOrder m getPercent trader order s).1 = (trader order s).1 := by
  unfold createOrder
  rcases htr : trader order s with ⟨_ | co, s1⟩ <;>
    by_cases h : shouldEmitTradingSignal m <;> simp [htr, h]

theorem createOrder_signals (m : Mode) (getPercent : Dec → Order → Dec)
    (trader : Order → MediatorState → Option Order × MediatorState)
    (order : Order) (s : MediatorState) :
    (createOrder m getPercent trader order s).2.signals =
      (match (trader order s).1 with
        | some co =>
          if shouldEmitTradingSignal m then
            SignalRecord.createdOrder co (getPercent s.portfolio order) :: (trader order s).2.signals
          else (trader order s).2.signals
        | none => (trader order s).2.signals) := by
  unfold createOrder
  rcases htr : trader order s with ⟨_ | co, s1⟩ <;>
    by_cases h : shouldEmitTradingSignal m <;> simp [htr, h]

theorem createOrder_portfolio (m : Mode) (getPercent : Dec → Order → Dec)
    (trader : Order → MediatorState → Option Order × MediatorState)
    (order : Order) (s : MediatorState) :
    (createOrder m getPercent trader order s).2.portfolio = (trader order s).2.portfolio := by
  unfold createOrder
  rcases htr : trader order s with ⟨_ | co, s1⟩ <;>
    by_cases h : shouldEmitTradingSignal m <;> simp [htr, h]

theorem cancelOrder_fst (m : Mode) (trader : Order → MediatorState → Bool × MediatorState)
    (order : Order) (s : MediatorState) :
    (cancelOrder m trader order s).1 = (trader order s).1 := by
  unfold cancelOrder
  by_cases h : shouldEmitTradingSignal m && (trader order s).1 <;> simp [h]

theorem cancelOrder_signals (m : Mode) (trader : Order → MediatorState → Bool × MediatorState)
    (order : Order) (s : MediatorState) :
    (cancelOrder m trader order s).2.signals =
      (if shouldEmitTradingSignal m && (trader order s).1 then
        SignalRecord.cancelledOrder order :: (trader order s).2.signals
      else (trader order s).2.signals) := by
  unfold cancelOrder
  by_cases h : shouldEmitTradingSignal m && (trader order s).1 <;> simp [h]

theorem editOrder_fst (m : Mode)
    (trader : Order → Option Dec → Option Dec → Option Dec → Option Dec →
      MediatorState → Bool × MediatorState)
    (order : Order) (uq up usp ucp : Option Dec) (s : MediatorState) :
    (editOrder m trader order uq up usp ucp s).1 = (trader order uq up usp ucp s).1 := by
  unfold editOrder
  by_cases h : shouldEmitTradingSignal m && (trader order uq up usp ucp s).1 <;> simp [h]

theorem editOrder_signals (m : Mode)
    (trader : Order → Option Dec → Option Dec → Option Dec → Option Dec →
      MediatorState → Bool × MediatorState)
    (order : Order) (uq up usp ucp : Option Dec) (s : MediatorState) :
    (editOrder m trader order uq up usp ucp s).2.signals =
      (if shouldEmitTradingSignal m && (trader order uq up usp ucp s).1 then
        SignalRecord.editedOrder order uq up usp ucp :: (trader order uq up usp ucp s).2.signals
      else (trader order uq up usp ucp s).2.signals) := by
  unfold editOrder
  by_cases h : shouldEmitTradingSignal m && (trader order uq up usp ucp s).1 <;> simp [h]

/-- C3: `create_order` returns the trader's result unchanged; when the trader
returns `None` no created-order signal record is enqueued; when it returns an
order and signal emission is enabled, exactly one created-order record is
enqueued, carrying the percent of portfolio computed by the collaborator from
the portfolio state as it was before the order was sent to the trader (the
trader may have mutated the portfolio since); and the mediator itself never
touches the portfolio. -/
theorem createOrder_spec (m : Mode) (getPercent : Dec → Order → Dec)
    (trader : Order → MediatorState → Option Order × MediatorState)
    (order : Order) (s : MediatorState) :
    (createOrder m getPercent trader order s).1 = (trader order s).1
    ∧ (createOrder m getPercent trader order s).2.signals =
        (match (trader order s).1 with
          | some co =>
            if shouldEmitTradingSignal m then
              SignalRecord.createdOrder co (getPercent s.portfolio order) ::
                (trader order s).2.signals
            else (trader order s).2.signals
          | none => (trader order s).2.signals)
    ∧ (createOrder m getPercent trader order s).2.portfolio = (trader order s).2.portfolio :=
  ⟨createOrder_fst m getPercent trader order s, createOrder_signals m getPercent trader order s,
    createOrder_portfolio m getPercent trader order s⟩

/-- C5: `cancel_order` (resp. `edit_order`) returns the trader's boolean
result unchanged and enqueues a cancellation (resp. edit) signal record if and
only if the trader reported success and signal emission is enabled; the edit
record receives the four optional edited fields (quantity, price, stop price,
current price) verbatim, absent (`none`) ones included. -/
theorem cancelOrder_editOrder_spec (m : Mode)
    (traderC : Order → MediatorState → Bool × MediatorState)
    (traderE : Order → Option Dec → Option Dec → Option Dec → Option Dec →
      MediatorState → Bool × MediatorState)
    (order : Order) (uq up usp ucp : Option Dec) (s sE : MediatorState) :
    (cancelOrder m traderC order s).1 = (traderC order s).1
    ∧ (cancelOrder m traderC order s).2.signals =
        (if shouldEmitTradingSignal m && (traderC order s).1 then
          SignalRecord.cancelledOrder order :: (traderC order s).2.signals
        else (traderC order s).2.signals)
    ∧ (editOrder m traderE order uq up usp ucp sE).1 = (traderE order uq up usp ucp sE).1
    ∧ (editOrder m traderE order uq up usp ucp sE).2.signals =
        (if shouldEmitTradingSignal m && (traderE order uq up usp ucp sE).1 then
          SignalRecord.editedOrder order uq up usp ucp ::
            (traderE order uq up usp ucp sE).2.signals
        else (traderE order uq up usp ucp sE).2.signals) :=
  ⟨cancelOrder_fst m traderC order s, cancelOrder_signals m traderC order s,
    editOrder_fst m traderE order uq up usp ucp sE,
    editOrder_signals m traderE order uq up usp ucp sE⟩

/-- C10: when the emit-trading-signals key is absent from the loaded trading
configuration, `is_trading_signal_emitter` returns `False` instead of raising
(the `KeyError` is caught), so `should_emit_trading_signal` is `False` and
none of the three order mediators ever enqueues a signal record. -/
theorem missingEmitKey_disables_signals (m : Mode)
    (h : m.tradingConfig.emitTradingSignals = none) :
    isTradingSignalEmitter m = false
    ∧ shouldEmitTradingSignal m = false
    ∧ (∀ (getPercent : Dec → Order → Dec)
        (trader : Order → MediatorState → Option Order × MediatorState)
        (order : Order) (s : MediatorState),
        (createOrder m getPercent trader order s).2.signals = (trader order s).2.signals)
    ∧ (∀ (traderC : Order → MediatorState → Bool × MediatorState) (order : Order)
        (s : MediatorState),
        (cancelOrder m traderC order s).2.signals = (traderC order s).2.signals)
    ∧ (∀ (traderE : Order → Option Dec → Option Dec → Option Dec → Option Dec →
          MediatorState → Bool × MediatorState)
        (order : Order) (uq up usp ucp : Option Dec) (s : MediatorState),
        (editOrder m traderE order uq up usp ucp s).2.signals =
          (traderE order uq up usp ucp s).2.signals) := by
  have hie : isTradingSignalEmitter m = false := by
    simp [isTradingSignalEmitter, h]
  have hse : shouldEmitTradingSignal m = false := by
    simp [shouldEmitTradingSignal, hie]
  refine ⟨hie, hse, ?_, ?_, ?_⟩
  · intro getPercent trader order s
    rw [createOrder_signals]
    rcases (trader order s).1 with _ | co <;> simp [hse]
  · intro traderC order s
    rw [cancelOrder_signals]
    simp [hse]
  · intro traderE order uq up usp ucp s
    rw [editOrder_signals]
    simp [hse]

/-- Witness for C10 at a concrete mode whose configuration lacks the
emit-trading-signals key. -/
theorem missingEmitKey_disables_signals_witness :
    isTradingSignalEmitter
        { tradingConfig := { emitTradingSignals := none, tradingSignalsStrategy := none },
          isBacktesting := false, name := "DailyTradingMode" } = false
    ∧ shouldEmitTradingSignal
        { tradingConfig := { emitTradingSignals := none, tradingSignalsStrategy := none },
          isBacktesting := false, name := "DailyTradingMode" } = false :=
  ⟨(missingEmitKey_disables_signals _ rfl).1, (missingEmitKey_disables_signals _ rfl).2.1⟩

/-- C4: `remote_signal_publisher` yields an active signal bundle builder (for
the symbol, under the mode's trading-signal identifier) exactly when the mode
is configured as a signal emitter and is not in a backtesting context, and
yields the no-op placeholder `None` otherwise; in both cases the caller's body
runs with the yielded value: with the placeholder the body's outcome is
returned untouched, and with the active builder a clean body and flush return
the body's outcome as well, so callers need not branch on which case applies. -/
theorem remoteSignalPublisher_spec (m : Mode) (symbol : String) :
    ((remoteSignalPublisherYield m symbol).isSome ↔
      (isTradingSignalEmitter m = true ∧ m.isBacktesting = false))
    ∧ (shouldEmitTradingSignal m = true →
        remoteSignalPublisherYield m symbol =
          some { symbol := symbol, identifier := getTradingSignalIdentifier m })
    ∧ (shouldEmitTradingSignal m = false → remoteSignalPublisherYield m symbol = none)
    ∧ (∀ (σ : Type) (body : Option SignalBundleBuilder → σ → σ × Except SigFailure Unit)
        (flush : SignalBundleBuilder → σ → Except SigFailure Unit) (s : σ),
        shouldEmitTradingSignal m = false →
          remoteSignalPublisher m symbol body flush s = body none s)
    ∧ (∀ (σ : Type) (body : Option SignalBundleBuilder → σ → σ × Except SigFailure Unit)
        (flush : SignalBundleBuilder → σ → Except SigFailure Unit) (s s1 : σ),
        shouldEmitTradingSignal m = true →
        body (some { symbol := symbol, identifier := getTradingSignalIdentifier m }) s
          = (s1, Except.ok ()) →
        flush { symbol := symbol, identifier := getTradingSignalIdentifier m } s1
          = Except.ok () →
        remoteSignalPublisher m symbol body flush s = (s1, Except.ok ())) := by
  refine ⟨?_, ?_, ?_, ?_, ?_⟩
  · rcases hie : isTradingSignalEmitter m with _ | _ <;> rcases hbt : m.isBacktesting with _ | _ <;>
      simp [remoteSignalPublisherYield, shouldEmitTradingSignal, hie, hbt]
  · intro hemit
    simp [remoteSignalPublisherYield, hemit]
  · intro hemit
    simp [remoteSignalPublisherYield, hemit]
  · intro σ body flush s hemit
    simp [remoteSignalPublisher, remoteSignalPublisherYield, hemit]
  · intro σ body flush s s1 hemit hbody hflush
    simp [remoteSignalPublisher, remoteSignalPublisherYield, hemit, hbody, hflush]

/-- Witness for C4: a concrete emitting mode yields an active builder and a
clean body and flush pass the body's outcome through; a non-emitting mode
yields the placeholder. -/
theorem remoteSignalPublisher_spec_witness :
    remoteSignalPublisher
        { tradingConfig := { emitTradingSignals := some true, tradingSignalsStrategy := some "strat" },
          isBacktesting := false, name := "DailyTradingMode" } "BTC/USDT"
        (fun _ (n : ℕ) => (n, Except.ok ())) (fun _ _ => Except.ok ()) 0 = (0, Except.ok ())
    ∧ remoteSignalPublisherYield
        { tradingConfig := { emitTradingSignals := some true, tradingSignalsStrategy := some "strat" },
          isBacktesting := true, name := "DailyTradingMode" } "BTC/USDT" = none :=
  ⟨(remoteSignalPublisher_spec
      { tradingConfig := { emitTradingSignals := some true, tradingSignalsStrategy := some "strat" },
        isBacktesting := false, name := "DailyTradingMode" } "BTC/USDT").2.2.2.2
      ℕ (fun _ n => (n, Except.ok ())) (fun _ _ => Except.ok ()) 0 0 rfl rfl rfl,
    (remoteSignalPublisher_spec
      { tradingConfig := { emitTradingSignals := some true, tradingSignalsStrategy := some "strat" },
        isBacktesting := true, name := "DailyTradingMode" } "BTC/USDT").2.2.1 rfl⟩

/-- C6: inside an emitting remote-signal scope, an authentication-required or
transport-unavailable failure raised by the remote signal transport (at the
bundle flush, or thrown into the scope body) is caught at the scope boundary
and never propagated to the caller of the order path; the state produced by
the body — the underlying order mutation's outcome — is returned unaffected. -/
theorem remoteSignalPublisher_failures_spec (m : Mode) (symbol : String) (σ : Type)
    (body : Option SignalBundleBuilder → σ → σ × Except SigFailure Unit)
    (flush : SignalBundleBuilder → σ → Except SigFailure Unit) (s s1 : σ)
    (hemit : shouldEmitTradingSignal m = true) :
    (body (some { symbol := symbol, identifier := getTradingSignalIdentifier m }) s
        = (s1, Except.ok ()) →
      flush { symbol := symbol, identifier := getTradingSignalIdentifier m } s1
        = Except.error SigFailure.authenticationRequired →
      remoteSignalPublisher m symbol body flush s = (s1, Except.ok ()))
    ∧ (body (some { symbol := symbol, identifier := getTradingSignalIdentifier m }) s
        = (s1, Except.ok ()) →
      flush { symbol := symbol, identifier := getTradingSignalIdentifier m } s1
        = Except.error SigFailure.unavailableError →
      remoteSignalPublisher m symbol body flush s = (s1, Except.ok ()))
    ∧ (body (some { symbol := symbol, identifier := getTradingSignalIdentifier m }) s
        = (s1, Except.error SigFailure.authenticationRequired) →
      remoteSignalPublisher m symbol body flush s = (s1, Except.ok ()))
    ∧ (body (some { symbol := symbol, identifier := getTradingSignalIdentifier m }) s
        = (s1, Except.error SigFailure.unavailableError) →
      remoteSignalPublisher m symbol body flush s = (s1, Except.ok ())) := by
  refine ⟨?_, ?_, ?_, ?_⟩ <;> intro hbody
  · intro hflush
    simp [remoteSignalPublisher, remoteSignalPublisherYield, hemit, hbody, hflush]
  · intro hflush
    simp [remoteSignalPublisher, remoteSignalPublisherYield, hemit, hbody, hflush]
  · simp [remoteSignalPublisher, remoteSignalPublisherYield, hemit, hbody]
  · simp [remoteSignalPublisher, remoteSignalPublisherYield, hemit, hbody]

/-- Witness for C6: with a concrete emitting mode, a body that places an order
(bumping a counter) and a flush that fails with the authentication-required
condition, the scope returns the body's state with no propagated error. -/
theorem remoteSignalPublisher_failures_spec_witness :
    remoteSignalPublisher
        { tradingConfig := { emitTradingSignals := some true, tradingSignalsStrategy := some "strat" },
          isBacktesting := false, name := "DailyTradingMode" } "BTC/USDT"
        (fun _ (n : ℕ) => (n + 1, Except.ok ()))
        (fun _ _ => Except.error SigFailure.authenticationRequired) 0 = (1, Except.ok ()) :=
  (remoteSignalPublisher_failures_spec
      { tradingConfig := { emitTradingSignals := some true, tradingSignalsStrategy := some "strat" },
        isBacktesting := false, name := "DailyTradingMode" } "BTC/USDT" ℕ
      (fun _ n => (n + 1, Except.ok ()))
      (fun _ _ => Except.error SigFailure.authenticationRequired) 0 1 rfl).1 rfl rfl

theorem stopTrace_pairwise (b saveOk : Bool) (p c : ℕ) :
    (stopTrace b saveOk p c).Pairwise (fun x y => stepPhase x ≤ stepPhase y) := by
  have hmapP : (List.map StopStep.stopProducer (List.range p)).Pairwise
      (fun x y => stepPhase x ≤ stepPhase y) := by
    rw [List.pairwise_map]
    exact List.pairwise_of_forall (fun _ _ => le_refl _)
  have hmapC : (List.map StopStep.stopConsumer (List.range c)).Pairwise
      (fun x y => stepPhase x ≤ stepPhase y) := by
    rw [List.pairwise_map]
    exact List.pairwise_of_forall (fun _ _ => le_refl _)
  have main : ∀ l0 : List StopStep, l0.Pairwise (fun x y => stepPhase x ≤ stepPhase y) →
      (∀ x ∈ l0, stepPhase x = 0) →
      ((l0 ++ List.map StopStep.stopProducer (List.range p)
        ++ List.map StopStep.stopConsumer (List.range c))
        ++ [StopStep.releaseExchangeManager]).Pairwise
          (fun x y => stepPhase x ≤ stepPhase y) := by
    intro l0 hl0 hl0mem
    rw [List.pairwise_append]
    refine ⟨?_, by simp, ?_⟩
    · rw [List.pairwise_append]
      refine ⟨?_, hmapC, ?_⟩
      · rw [List.pairwise_append]
        refine ⟨hl0, hmapP, ?_⟩
        intro x hx y hy
        obtain ⟨i, _, rfl⟩ := List.mem_map.1 hy
        rw [hl0mem x hx]
        simp [stepPhase]
      · intro x hx y hy
        obtain ⟨j, _, rfl⟩ := List.mem_map.1 hy
        rcases List.mem_append.1 hx with hx0 | hxp
        · rw [hl0mem x hx0]
          simp [stepPhase]
        · obtain ⟨i, _, rfl⟩ := List.mem_map.1 hxp
          simp [stepPhase]
    · intro x _ y hy
      rw [List.mem_singleton.1 hy]
      cases x <;> simp [stepPhase]
  unfold stopTrace
  rcases b with _ | _ <;> rcases saveOk with _ | _
  · exact main [] List.Pairwise.nil (by simp)
  · exact main [] List.Pairwise.nil (by simp)
  · exact List.pairwise_singleton _ _
  · exact main [StopStep.saveBacktestingData] (List.pairwise_singleton _ _)
      (by intro x hx; rw [List.mem_singleton.1 hx]; rfl)

/-- C7: every execution of `stop()` performs its teardown steps in the fixed
order save-metadata (only in a backtesting context, and only then), then every
producer stop, then every consumer stop, then the release of the
`exchange_manager` reference: no step ever runs before a step of an earlier
phase, the release is the last step of a completed run, and a completed run
stops every producer and every consumer. -/
theorem stop_fixed_order (b saveOk : Bool) (p c : ℕ) :
    (stopTrace b saveOk p c).Pairwise (fun x y => stepPhase x ≤ stepPhase y)
    ∧ (stopTrace b true p c).getLast? = some StopStep.releaseExchangeManager
    ∧ (StopStep.saveBacktestingData ∈ stopTrace b saveOk p c ↔ b = true)
    ∧ (∀ i, i < p → StopStep.stopProducer i ∈ stopTrace b true p c)
    ∧ (∀ i, i < c → StopStep.stopConsumer i ∈ stopTrace b true p c) := by
  refine ⟨stopTrace_pairwise b saveOk p c, ?_, ?_, ?_, ?_⟩
  · unfold stopTrace
    rcases b with _ | _
    · exact List.getLast?_concat _
    · exact List.getLast?_concat _
  · unfold stopTrace
    rcases b with _ | _ <;> rcases saveOk with _ | _ <;> simp
  · intro i hi
    unfold stopTrace
    rcases b with _ | _ <;> simp [hi]
  · intro i hi
    unfold stopTrace
    rcases b with _ | _ <;> simp [hi]

/-- Witness for C7 on a concrete backtesting teardown with two producers and
one consumer. -/
theorem stop_fixed_order_witness :
    (stopTrace true true 2 1).Pairwise (fun x y => stepPhase x ≤ stepPhase y)
    ∧ (stopTrace true true 2 1).getLast? = some StopStep.releaseExchangeManager
    ∧ (StopStep.saveBacktestingData ∈ stopTrace true true 2 1 ↔ true = true)
    ∧ StopStep.stopProducer 1 ∈ stopTrace true true 2 1
    ∧ StopStep.stopConsumer 0 ∈ stopTrace true true 2 1 :=
  ⟨(stop_fixed_order true true 2 1).1, (stop_fixed_order true true 2 1).2.1,
    (stop_fixed_order true true 2 1).2.2.1,
    (stop_fixed_order true true 2 1).2.2.2.1 1 (by decide),
    (stop_fixed_order true true 2 1).2.2.2.2 0 (by decide)⟩

theorem saveBacktestingData_global_step (wk : Bool) (m : ModeState) (g : GlobalState)
    (B : String) :
    (SaveOnceInv g B → SaveOnceInv (saveBacktestingData wk m g).2.1 B)
    ∧ (flagFor g B = true →
        flagFor (saveBacktestingData wk m g).2.1 B = true
        ∧ writesFor (saveBacktestingData wk m g).2.1 B = writesFor g B) := by
  rcases hem : m.exchangeManager with _ | em
  · simp [saveBacktestingData, hem]
  · by_cases hsaved : m.areMetadataSaved = true
    · simp [saveBacktestingData, hem, hsaved]
    · rw [Bool.not_eq_true] at hsaved
      by_cases hflag : g.savedRunMetadataDbByBotId em.botId = true
      · simp [saveBacktestingData, hem, hsaved, hflag, SaveOnceInv, flagFor, writesFor]
      · rw [Bool.not_eq_true] at hflag
        by_cases hB : em.botId = B
        · subst hB
          cases wk
          · constructor
            · rintro ⟨hle, hiff⟩
              have hcount : writesFor g em.botId = 0 := by
                rcases Nat.lt_or_ge (writesFor g em.botId) 1 with h | h
                · omega
                · exact absurd (hiff.2 (by omega)) (by simp [flagFor, hflag])
              simp only [writesFor] at hcount
              constructor
              · simp [saveBacktestingData, hem, hsaved, hflag, writesFor, hcount]
              · simp [saveBacktestingData, hem, hsaved, hflag, writesFor, flagFor, setFlag,
                  hcount]
            · intro h
              rw [flagFor, hflag] at h
              exact absurd h (by simp)
          · constructor
            · rintro ⟨hle, hiff⟩
              have hcount : writesFor g em.botId = 0 := by
                rcases Nat.lt_or_ge (writesFor g em.botId) 1 with h | h
                · omega
                · exact absurd (hiff.2 (by omega)) (by simp [flagFor, hflag])
              simp only [writesFor] at hcount
              constructor
              · simp [saveBacktestingData, hem, hsaved, hflag, writesFor, hcount]
              · simp [saveBacktestingData, hem, hsaved, hflag, writesFor, flagFor, setFlag,
                  hcount]
            · intro h
              rw [flagFor, hflag] at h
              exact absurd h (by simp)
        · have hne : B ≠ em.botId := fun h => hB h.symm
          have hflagEq : flagFor (saveBacktestingData wk m g).2.1 B = flagFor g B := by
            cases wk <;>
              simp [saveBacktestingData, hem, hsaved, hflag, flagFor, setFlag, hne]
          have hwriteEq : writesFor (saveBacktestingData wk m g).2.1 B = writesFor g B := by
            cases wk <;>
              simp [saveBacktestingData, hem, hsaved, hflag, writesFor, hne]
          constructor
          · rintro ⟨hle, hiff⟩
            exact ⟨by rw [hwriteEq]; exact hle, by rw [hflagEq, hwriteEq]; exact hiff⟩
          · intro h
            exact ⟨by rw [hflagEq]; exact h, hwriteEq⟩

theorem stop_global_cases (wk : Bool) (m : ModeState) (g : GlobalState) :
    (stop wk m g).2.1 = (saveBacktestingData wk m g).2.1 ∨ (stop wk m g).2.1 = g := by
  rcases hem : m.exchangeManager with _ | em
  · right
    simp [stop, hem]
  · by_cases hbt : em.isBacktesting = true
    · left
      simp only [stop, hem, hbt, if_true]
      rcases hs : saveBacktestingData wk m g with ⟨m1, g1, r⟩
      rcases r with _ | _ <;> simp
    · right
      rw [Bool.not_eq_true] at hbt
      simp [stop, hem, hbt]

theorem sysStop_global_step (cl : ℕ × Bool) (s : SysState) (B : String) :
    (SaveOnceInv s.global B → SaveOnceInv (sysStop cl s).global B)
    ∧ (flagFor s.global B = true →
        flagFor (sysStop cl s).global B = true
        ∧ writesFor (sysStop cl s).global B = writesFor s.global B) := by
  unfold sysStop
  rcases hget : s.modes.get? cl.1 with _ | m
  · simp
  · simp only
    rcases stop_global_cases cl.2 m s.global with hcase | hcase <;> rw [hcase]
    · exact saveBacktestingData_global_step cl.2 m s.global B
    · exact ⟨id, fun h => ⟨h, rfl⟩⟩

theorem runStops_global_inv (B : String) (calls : List (ℕ × Bool)) (s : SysState)
    (h : SaveOnceInv s.global B) : SaveOnceInv (runStops calls s).global B := by
  induction calls generalizing s with
  | nil => exact h
  | cons cl cls ih => exact ih (sysStop cl s) ((sysStop_global_step cl s B).1 h)

theorem runStops_global_persist (B : String) (calls : List (ℕ × Bool)) (s : SysState)
    (h : flagFor s.global B = true) :
    flagFor (runStops calls s).global B = true
    ∧ writesFor (runStops calls s).global B = writesFor s.global B := by
  induction calls generalizing s with
  | nil => exact ⟨h, rfl⟩
  | cons cl cls ih =>
    obtain ⟨h1, h2⟩ := (sysStop_global_step cl s B).2 h
    obtain ⟨h3, h4⟩ := ih (sysStop cl s) h1
    exact ⟨h3, by rw [runStops, h4, h2]⟩

/-- C1: over any sequence of `stop()` calls on any collection of trading-mode
instances started from a fresh process state, the backtesting metadata record
for a bot-run id is successfully written at most once; the
`SAVED_RUN_METADATA_DB_BY_BOT_ID` flag for that id reads `True` exactly when
the write has happened; and once it reads `True`, any further sequence of
`stop()` calls leaves it `True` and performs no further metadata write. -/
theorem stop_saves_metadata_once (B : String) (instances : List ModeState)
    (calls calls2 : List (ℕ × Bool)) :
    writesFor (runStops calls (initSys instances)).global B ≤ 1
    ∧ (flagFor (runStops calls (initSys instances)).global B = true
        ↔ writesFor (runStops calls (initSys instances)).global B = 1)
    ∧ (flagFor (runStops calls (initSys instances)).global B = true →
        flagFor (runStops calls2 (runStops calls (initSys instances))).global B = true
        ∧ writesFor (runStops calls2 (runStops calls (initSys instances))).global B
            = writesFor (runStops calls (initSys instances)).global B) := by
  have hinit : SaveOnceInv (initSys instances).global B := by
    simp [SaveOnceInv, writesFor, flagFor, initSys]
  have hinv := runStops_global_inv B calls (initSys instances) hinit
  exact ⟨hinv.1, hinv.2, fun h => runStops_global_persist B calls2 _ h⟩

/-- Witness for C1: two backtesting instances sharing bot-run id `"X"`, both
stopped, then one stopped again: exactly one metadata write, flag `True`. -/
theorem stop_saves_metadata_once_witness :
    writesFor (runStops [(0, true), (1, true)]
        (initSys [{ areMetadataSaved := false, exchangeManager := some { botId := "X", isBacktesting := true } },
          { areMetadataSaved := false, exchangeManager := some { botId := "X", isBacktesting := true } }])).global
        "X" ≤ 1
    ∧ flagFor (runStops [(0, true)] (runStops [(0, true), (1, true)]
        (initSys [{ areMetadataSaved := false, exchangeManager := some { botId := "X", isBacktesting := true } },
          { areMetadataSaved := false, exchangeManager := some { botId := "X", isBacktesting := true } }]))).global
        "X" = true
    ∧ writesFor (runStops [(0, true)] (runStops [(0, true), (1, true)]
        (initSys [{ areMetadataSaved := false, exchangeManager := some { botId := "X", isBacktesting := true } },
          { areMetadataSaved := false, exchangeManager := some { botId := "X", isBacktesting := true } }]))).global
        "X" = 1 := by
  have h := stop_saves_metadata_once "X"
    [{ areMetadataSaved := false, exchangeManager := some { botId := "X", isBacktesting := true } },
      { areMetadataSaved := false, exchangeManager := some { botId := "X", isBacktesting := true } }]
    [(0, true), (1, true)] [(0, true)]
  have hflag : flagFor (runStops [(0, true), (1, true)]
      (initSys [{ areMetadataSaved := false, exchangeManager := some { botId := "X", isBacktesting := true } },
        { areMetadataSaved := false, exchangeManager := some { botId := "X", isBacktesting := true } }])).global
      "X" = true := by decide
  obtain ⟨hpersist, hcount⟩ := h.2.2 hflag
  exact ⟨h.1, hpersist, by rw [hcount]; exact h.2.1.1 hflag⟩

/-- C2: if the backtesting metadata computation or write raises inside
`save_backtesting_data`, the per-bot-run saved flag is reset to `False` before
the exception propagates to the caller, the instance state and the write log
are untouched, and a subsequent call re-runs the full pipeline — it flushes
and recomputes again and performs the write — rather than skipping or reusing
a partial result. -/
theorem saveBacktestingData_failure_retries (m : ModeState) (g : GlobalState)
    (em : ExchangeManager) (hem : m.exchangeManager = some em)
    (hsaved : m.areMetadataSaved = false)
    (hflag : g.savedRunMetadataDbByBotId em.botId = false) :
    (saveBacktestingData false m g).2.2 = Except.error ()
    ∧ (saveBacktestingData false m g).1 = m
    ∧ flagFor (saveBacktestingData false m g).2.1 em.botId = false
    ∧ (saveBacktestingData false m g).2.1.metadataWrites = g.metadataWrites
    ∧ (saveBacktestingData false m g).2.1.flushes = em.botId :: g.flushes
    ∧ (saveBacktestingData true (saveBacktestingData false m g).1
        (saveBacktestingData false m g).2.1).2.2 = Except.ok ()
    ∧ (saveBacktestingData true (saveBacktestingData false m g).1
        (saveBacktestingData false m g).2.1).2.1.metadataWrites = em.botId :: g.metadataWrites
    ∧ (saveBacktestingData true (saveBacktestingData false m g).1
        (saveBacktestingData false m g).2.1).2.1.flushes = em.botId :: em.botId :: g.flushes
    ∧ (saveBacktestingData true (saveBacktestingData false m g).1
        (saveBacktestingData false m g).2.1).1.areMetadataSaved = true
    ∧ flagFor (saveBacktestingData true (saveBacktestingData false m g).1
        (saveBacktestingData false m g).2.1).2.1 em.botId = true := by
  refine ⟨?_, ?_, ?_, ?_, ?_, ?_, ?_, ?_, ?_, ?_⟩ <;>
    simp [saveBacktestingData, hem, hsaved, hflag, flagFor, setFlag]

/-- Witness for C2 at a concrete instance and fresh process state for bot-run
id `"X"`. -/
theorem saveBacktestingData_failure_retries_witness :
    (saveBacktestingData false
        { areMetadataSaved := false, exchangeManager := some { botId := "X", isBacktesting := true } }
        { savedRunMetadataDbByBotId := fun _ => false, metadataWrites := [], flushes := [] }).2.2
      = Except.error ()
    ∧ flagFor (saveBacktestingData false
        { areMetadataSaved := false, exchangeManager := some { botId := "X", isBacktesting := true } }
        { savedRunMetadataDbByBotId := fun _ => false, metadataWrites := [], flushes := [] }).2.1 "X"
      = false
    ∧ (saveBacktestingData true
        (saveBacktestingData false
          { areMetadataSaved := false, exchangeManager := some { botId := "X", isBacktesting := true } }
          { savedRunMetadataDbByBotId := fun _ => false, metadataWrites := [], flushes := [] }).1
        (saveBacktestingData false
          { areMetadataSaved := false, exchangeManager := some { botId := "X", isBacktesting := true } }
          { savedRunMetadataDbByBotId := fun _ => false, metadataWrites := [], flushes := [] }).2.1).2.1.metadataWrites
      = ["X"] := by
  have h := saveBacktestingData_failure_retries
    { areMetadataSaved := false, exchangeManager := some { botId := "X", isBacktesting := true } }
    { savedRunMetadataDbByBotId := fun _ => false, metadataWrites := [], flushes := [] }
    { botId := "X", isBacktesting := true } rfl rfl rfl
  exact ⟨h.1, h.2.2.1, h.2.2.2.2.2.2.1⟩

/-- C9: after a `stop()` that completed without raising, the instance's
`exchange_manager` reference is `None`; and any `save_backtesting_data` call
made while `are_metadata_saved` is `True` or `exchange_manager` is `None`
returns immediately with no flush, no computation, no write and no state
change at all. -/
theorem stop_release_and_save_skip (writeOk : Bool) (m : ModeState) (g : GlobalState) :
    ((stop writeOk m g).2.2 = Except.ok () → (stop writeOk m g).1.exchangeManager = none)
    ∧ (m.areMetadataSaved = true ∨ m.exchangeManager = none →
        saveBacktestingData writeOk m g = (m, g, Except.ok ())) := by
  constructor
  · intro hok
    rcases hem : m.exchangeManager with _ | em
    · rw [stop] at hok
      simp [hem] at hok
    · by_cases hbt : em.isBacktesting = true
      · rcases hs : saveBacktestingData writeOk m g with ⟨m1, rest⟩
        rcases rest with ⟨g1, r⟩
        rcases r with _ | _
        · rw [stop] at hok ⊢
          simp [hem, hbt, hs] at hok
        · rw [stop]
          simp [hem, hbt, hs]
      · rw [Bool.not_eq_true] at hbt
        rw [stop]
        simp [hem, hbt]
  · intro hskip
    rcases hskip with hsv | hemn
    · rcases hem : m.exchangeManager with _ | em
      · simp [saveBacktestingData, hem]
      · simp [saveBacktestingData, hem, hsv]
    · simp [saveBacktestingData, hemn]

/-- Witness for C9: a concrete backtesting instance whose metadata are already
saved: its `stop()` completes, releases the reference, and the save call is a
no-op. -/
theorem stop_release_and_save_skip_witness :
    (stop true
        { areMetadataSaved := true, exchangeManager := some { botId := "X", isBacktesting := true } }
        { savedRunMetadataDbByBotId := fun _ => false, metadataWrites := [], flushes := [] }).1.exchangeManager
      = none
    ∧ saveBacktestingData true
        { areMetadataSaved := true, exchangeManager := some { botId := "X", isBacktesting := true } }
        { savedRunMetadataDbByBotId := fun _ => false, metadataWrites := [], flushes := [] }
      = ({ areMetadataSaved := true, exchangeManager := some { botId := "X", isBacktesting := true } },
        { savedRunMetadataDbByBotId := fun _ => false, metadataWrites := [], flushes := [] },
        Except.ok ()) :=
  ⟨(stop_release_and_save_skip true
      { areMetadataSaved := true, exchangeManager := some { botId := "X", isBacktesting := true } }
      { savedRunMetadataDbByBotId := fun _ => false, metadataWrites := [], flushes := [] }).1 rfl,
    (stop_release_and_save_skip true
      { areMetadataSaved := true, exchangeManager := some { botId := "X", isBacktesting := true } }
      { savedRunMetadataDbByBotId := fun _ => false, metadataWrites := [], flushes := [] }).2
      (Or.inl rfl)⟩

end AbstractTradingMode
